import Mathlib

/-!
Verification of the PID-control-and-tuning core of `carnd_pid_control`.

The per-frame state machine (`PidController::Update` in `src/PidController.cpp`)
and the argument validation (`src/main.cpp`) are embedded as executable Lean
definitions over `ℚ` (the source's `double` arithmetic modelled exactly as
rational arithmetic; division is total with `x / 0 = 0`).  The `Pid` and
`Twiddler` collaborators are declared and used by the sources but their own
source files are not part of the snapshot, so they are modelled from the spec.
Callback invocations (`on_control` / `on_reset`) are modelled as the ordered
list of events a single `Update` call emits.
-/

namespace CarndPidControl

/-! ### Local constants of `src/PidController.cpp` -/

def kMinMeasurementDistance : ℚ := 5
def kMaxCteSkipPart : ℚ := 0.025
def kOffTrackPenalty : ℚ := 1000000
def kMetersInMile : ℚ := 1609.344
def kFrameRate : ℚ := 25
def kSecondsPerFrame : ℚ := 1 / kFrameRate
def kMphToMps : ℚ := kMetersInMile / (60 * 60)
def kSpeedToDistanceCoeff : ℚ := kMphToMps / kFrameRate

/-- `NormalizeControl` of `src/PidController.cpp`: clamp a control value to
`[-1, 1]`. -/
def NormalizeControl (value : ℚ) : ℚ :=
  if value > 1 then 1
  else if value < -1 then -1
  else value

/-! ### The PID law (`Pid` class) -/

/-- The state of the PID law: the three gains, the running sum of all CTE
values seen since construction, and the previous call's CTE. -/
structure Pid where
  kp : ℚ
  ki : ℚ
  kd : ℚ
  integral : ℚ
  prev_cte : ℚ
deriving DecidableEq

/-- Modelled from the spec: construction of the `Pid` class (its source file is
not in the repository snapshot) takes the three coefficients and resets all
internal accumulators to zero. -/
def Pid.init (kp ki kd : ℚ) : Pid :=
  ⟨kp, ki, kd, 0, 0⟩

/-- Modelled from the spec: `Pid::GetError` (source file not in the snapshot)
produces the correction `-(Kp*cte + Ki*integral_of_cte + Kd*(cte - previous_cte))`
where `integral_of_cte` is the running sum of every CTE seen (including the
current one, as in the reference loop of `test/TestPidController.cpp`) and
`previous_cte` is the CTE of the prior call (zero on the first call).  It
mutates the running sum and previous-error memory on every call; we return the
updated state together with the correction. -/
def Pid.GetError (pid : Pid) (cte : ℚ) : Pid × ℚ :=
  let integral := pid.integral + cte
  let correction := -(pid.kp * cte + pid.ki * integral + pid.kd * (cte - pid.prev_cte))
  ({ pid with integral := integral, prev_cte := cte }, correction)

/-! ### The coordinate-descent tuner (`Twiddler` class) -/

/-- One tuning parameter: a coefficient value paired with its current
perturbation step size. -/
structure TuningParameter where
  p : ℚ
  dp : ℚ
deriving DecidableEq

/-- The two-phase probe of the Twiddle search: trying `+delta` first, then
`-delta` if the first failed. -/
inductive TwiddlePhase where
  | tryPlus
  | tryMinus
deriving DecidableEq

/-- Modelled from the spec: the state of the `Twiddler` class (source file not
in the snapshot): three `(value, delta)` parameters, the index of the parameter
currently being perturbed, the probe phase, and the best score seen so far
(`none` before the first submission). -/
structure Twiddler where
  param0 : TuningParameter
  param1 : TuningParameter
  param2 : TuningParameter
  index : Fin 3
  phase : TwiddlePhase
  best_error : Option ℚ
deriving DecidableEq

/-- Read the tuning parameter at an index. -/
def Twiddler.getParam (t : Twiddler) : Fin 3 → TuningParameter
  | 0 => t.param0
  | 1 => t.param1
  | 2 => t.param2

/-- Replace the tuning parameter at an index. -/
def Twiddler.setParam (t : Twiddler) : Fin 3 → TuningParameter → Twiddler
  | 0, q => { t with param0 := q }
  | 1, q => { t with param1 := q }
  | 2, q => { t with param2 := q }

/-- Modelled from the spec: the `Twiddler` is constructed with three
`(value, initial_delta)` pairs; exploration starts at parameter 0 with no best
score recorded yet. -/
def Twiddler.init (kp dkp ki dki kd dkd : ℚ) : Twiddler :=
  ⟨⟨kp, dkp⟩, ⟨ki, dki⟩, ⟨kd, dkd⟩, 0, TwiddlePhase.tryPlus, none⟩

/-- Advance to the next parameter (cyclically) and perturb it upward by its
delta, entering its "try plus" probe. -/
def Twiddler.advance (t : Twiddler) : Twiddler :=
  let i := t.index + 1
  let cur := t.getParam i
  { t.setParam i { cur with p := cur.p + cur.dp } with
      index := i, phase := TwiddlePhase.tryPlus }

/-- Modelled from the spec: `Twiddler::UpdateError` (source file not in the
snapshot), the "submit score for current trial" operation.
On the very first call it records the score as the running best and perturbs
parameter 0 upward by its delta.  On subsequent calls: if the score improved
on the best, record it, grow the current delta by ×1.1 and advance; if not
improved during the "try plus" probe, subtract twice the delta from the current
value (net one delta below the original) and switch to the "try minus" probe;
if not improved during the "try minus" probe, undo the minus perturbation,
shrink the delta by ×0.9 and advance. -/
def Twiddler.UpdateError (t : Twiddler) (score : ℚ) : Twiddler :=
  match t.best_error with
  | none =>
      let cur := t.getParam 0
      { t.setParam 0 { cur with p := cur.p + cur.dp } with
          index := 0, phase := TwiddlePhase.tryPlus, best_error := some score }
  | some best =>
      if score < best then
        let cur := t.getParam t.index
        Twiddler.advance
          { t.setParam t.index { cur with dp := cur.dp * 1.1 } with
              best_error := some score }
      else
        match t.phase with
        | TwiddlePhase.tryPlus =>
            let cur := t.getParam t.index
            { t.setParam t.index { cur with p := cur.p - 2 * cur.dp } with
                phase := TwiddlePhase.tryMinus }
        | TwiddlePhase.tryMinus =>
            let cur := t.getParam t.index
            Twiddler.advance
              (t.setParam t.index ⟨cur.p + cur.dp, cur.dp * 0.9⟩)

/-! ### The episode controller (`PidController` class) -/

/-- One callback invocation of `PidController::Update`: either
`on_control(steering, throttle)` or `on_reset()`. -/
inductive UpdateOutput where
  | control (steering throttle : ℚ)
  | reset
deriving DecidableEq

/-- The member state of `PidController`. `twiddler` is `none` for the
fixed-coefficients constructor (whose C++ `unique_ptr` stays null). -/
structure PidController where
  has_final_coefficients : Bool
  track_length : ℚ
  off_track_cte : ℚ
  distance : ℚ
  time : ℚ
  max_cte : ℚ
  pid : Pid
  twiddler : Option Twiddler
deriving DecidableEq

/-- The tuning constructor of `src/PidController.cpp` (lines 38-53), with its
parameter order `(kp, ki, kd, dkp, dki, dkd, track_length, off_track_cte)`:
tuning mode, numeric members zero-initialized, PID law and Twiddler built from
the given coefficients and deltas. -/
def PidController.mkTuning
    (kp ki kd dkp dki dkd track_length off_track_cte : ℚ) : PidController :=
  ⟨false, track_length, off_track_cte, 0, 0, 0, Pid.init kp ki kd,
   some (Twiddler.init kp dkp ki dki kd dkd)⟩

/-- The final-coefficients constructor of `src/PidController.cpp` (lines
55-65): fixed mode, with `track_length_`, `off_track_cte_`, `distance_`,
`time_` and `max_cte_` all zero-initialized and no Twiddler. -/
def PidController.mkFixed (kp ki kd : ℚ) : PidController :=
  ⟨true, 0, 0, 0, 0, 0, Pid.init kp ki kd, none⟩

/-- `PidController::UpdateTwiddlerAndReset` (lines 120-132): submit the episode
score to the Twiddler, rebuild the PID law from the returned three coefficient
values, and zero `distance_`, `time_` and `max_cte_`.  (The C++ only ever calls
this with a live Twiddler; with no Twiddler we leave the state unchanged.) -/
def PidController.UpdateTwiddlerAndReset (s : PidController) (error : ℚ) :
    PidController :=
  match s.twiddler with
  | none => s
  | some t =>
      let t2 := t.UpdateError error
      { s with
          pid := Pid.init (t2.getParam 0).p (t2.getParam 1).p (t2.getParam 2).p,
          twiddler := some t2,
          distance := 0, time := 0, max_cte := 0 }

/-- The control computation at the tail of `PidController::Update` (lines
110-115): steering is the clamped PID correction, throttle is `1.0` or, above
60 mph, the clamped `1.0 - 4.0*|cte| / off_track_cte_`; `on_control` is
invoked once. -/
def PidController.EmitControl (s : PidController) (cte speed : ℚ) :
    PidController × List UpdateOutput :=
  let r := s.pid.GetError cte
  let steering := NormalizeControl r.2
  let throttle :=
    if speed > 60 then NormalizeControl (1 - 4 * |cte| / s.off_track_cte) else 1
  ({ s with pid := r.1 }, [UpdateOutput.control steering throttle])

/-- The accumulated distance after this frame's contribution
(`distance_ += kSpeedToDistanceCoeff * speed`, line 74). -/
def PidController.newDistance (s : PidController) (speed : ℚ) : ℚ :=
  s.distance + kSpeedToDistanceCoeff * speed

/-- The accumulated time after this frame (`time_ += kSecondsPerFrame`,
line 75). -/
def PidController.newTime (s : PidController) : ℚ :=
  s.time + kSecondsPerFrame

/-- The recorded max CTE after this frame (lines 76-79): replaced by `cte`
when `cte > max_cte_` and the updated distance is past
`track_length_ * kMaxCteSkipPart`. -/
def PidController.newMaxCte (s : PidController) (cte speed : ℚ) : ℚ :=
  if cte > s.max_cte ∧ s.newDistance speed > s.track_length * kMaxCteSkipPart
  then cte else s.max_cte

/-- The off-track condition of lines 82-83: the updated distance exceeds
`kMinMeasurementDistance` and `|cte| > off_track_cte_` or `speed < 1.0`. -/
def PidController.offTrackDetected (s : PidController) (cte speed : ℚ) : Prop :=
  s.newDistance speed > kMinMeasurementDistance ∧
    (|cte| > s.off_track_cte ∨ speed < 1)

instance (s : PidController) (cte speed : ℚ) :
    Decidable (s.offTrackDetected cte speed) := by
  unfold PidController.offTrackDetected
  infer_instance

/-- The episode bookkeeping of lines 74-79: store the updated distance, time
and max CTE. -/
def PidController.tuningStep (s : PidController) (cte speed : ℚ) :
    PidController :=
  { s with
      distance := s.newDistance speed,
      time := s.newTime,
      max_cte := s.newMaxCte cte speed }

/-- `PidController::Update` (lines 67-116).  In tuning mode: accumulate
distance and time, record the max CTE once past the skip distance, then check
off-track (`distance > 5 ∧ (|cte| > off_track_cte ∨ speed < 1)`), then track
completion (`distance > track_length`, converging to fixed mode when the max
CTE is below half the off-track CTE); otherwise (and always in fixed mode)
emit the control command. -/
def PidController.Update (s : PidController) (cte speed : ℚ) :
    PidController × List UpdateOutput :=
  if s.has_final_coefficients then s.EmitControl cte speed
  else if s.offTrackDetected cte speed then
    ((s.tuningStep cte speed).UpdateTwiddlerAndReset
       (kOffTrackPenalty / s.newDistance speed),
     [UpdateOutput.reset])
  else if s.newDistance speed > s.track_length then
    if s.newMaxCte cte speed < s.off_track_cte / 2 then
      ({ s.tuningStep cte speed with
           has_final_coefficients := true }).EmitControl cte speed
    else
      ((s.tuningStep cte speed).UpdateTwiddlerAndReset (s.newMaxCte cte speed),
       [UpdateOutput.reset])
  else
    (s.tuningStep cte speed).EmitControl cte speed

/-- Fold a sequence of `(cte, speed)` frames through `Update`, keeping the
final state. -/
def PidController.runUpdates (s : PidController) :
    List (ℚ × ℚ) → PidController
  | [] => s
  | (cte, speed) :: rest => ((s.Update cte speed).1).runUpdates rest

/-- Fold a sequence of `(cte, speed)` frames through `Update`, keeping the
final state and the concatenation of all emitted callback events. -/
def PidController.runTrace (s : PidController) :
    List (ℚ × ℚ) → PidController × List UpdateOutput
  | [] => (s, [])
  | (cte, speed) :: rest =>
      let r := s.Update cte speed
      let r2 := r.1.runTrace rest
      (r2.1, r.2 ++ r2.2)

/-- Repeated application of `Update` with one fixed `(cte, speed)` input,
keeping only the controller state. -/
def PidController.iterState (s : PidController) (cte speed : ℚ) :
    ℕ → PidController
  | 0 => s
  | n + 1 => ((s.iterState cte speed n).Update cte speed).1

/-! ### Argument validation (`src/main.cpp`) -/

def kMinOffTrackCte : ℚ := 0.1
def kMinTrackLength : ℚ := 50

/-- `ProcessBaseParameters` of `src/main.cpp` (lines 53-70): reject a negative
`off_track_cte`, then reject one below `kMinOffTrackCte`; `none` models
`std::exit(EXIT_FAILURE)`.  Accepted values are returned unchanged. -/
def ProcessBaseParameters (kp ki kd off_track_cte : ℚ) :
    Option (ℚ × ℚ × ℚ × ℚ) :=
  if off_track_cte < 0 then none
  else if off_track_cte < kMinOffTrackCte then none
  else some (kp, ki, kd, off_track_cte)

/-- The nine-argument path of `CreatePidController` in `src/main.cpp` (lines
117-139): validate the base parameters, reject a negative `track_length`, then
reject one below `kMinTrackLength`, and only then construct the tuning
controller; `none` models `std::exit(EXIT_FAILURE)`.  The call at
`main.cpp:136-137` passes `(kp, ki, kd, off_track_cte, dkp, dki, dkd,
track_length)` positionally, while the constructor definition at
`PidController.cpp:38-40` binds its eight parameters in the order
`(kp, ki, kd, dkp, dki, dkd, track_length, off_track_cte)`; in C++ the
definition's positional binding governs, so the validated `off_track_cte`
lands in the constructor's `dkp` slot and the validated `track_length` in its
`off_track_cte` slot — reproduced here by passing the call-site arguments to
`mkTuning` (whose parameter order mirrors the constructor definition) in the
call-site order. -/
def CreatePidControllerTuning
    (kp ki kd off_track_cte dkp dki dkd track_length : ℚ) :
    Option PidController :=
  match ProcessBaseParameters kp ki kd off_track_cte with
  | none => none
  | some q =>
      if track_length < 0 then none
      else if track_length < kMinTrackLength then none
      else some (PidController.mkTuning q.1 q.2.1 q.2.2.1 q.2.2.2 dkp dki dkd
                   track_length)

/-- Whether a callback invocation was `on_control`. -/
def UpdateOutput.isControl : UpdateOutput → Bool
  | control _ _ => true
  | reset => false

/-! ### Basic unfolding lemmas -/

@[simp]
theorem tuningStep_pid (s : PidController) (cte speed : ℚ) :
    (s.tuningStep cte speed).pid = s.pid := rfl

@[simp]
theorem tuningStep_off_track_cte (s : PidController) (cte speed : ℚ) :
    (s.tuningStep cte speed).off_track_cte = s.off_track_cte := rfl

@[simp]
theorem tuningStep_twiddler (s : PidController) (cte speed : ℚ) :
    (s.tuningStep cte speed).twiddler = s.twiddler := rfl

@[simp]
theorem tuningStep_track_length (s : PidController) (cte speed : ℚ) :
    (s.tuningStep cte speed).track_length = s.track_length := rfl

@[simp]
theorem tuningStep_has_final (s : PidController) (cte speed : ℚ) :
    (s.tuningStep cte speed).has_final_coefficients =
      s.has_final_coefficients := rfl

theorem EmitControl_eq (s : PidController) (cte speed : ℚ) :
    s.EmitControl cte speed =
      ({ s with pid := (s.pid.GetError cte).1 },
       [UpdateOutput.control (NormalizeControl (s.pid.GetError cte).2)
          (if speed > 60 then NormalizeControl (1 - 4 * |cte| / s.off_track_cte)
           else 1)]) := rfl

theorem update_final (s : PidController) (cte speed : ℚ)
    (h : s.has_final_coefficients = true) :
    s.Update cte speed =
      ({ s with pid := (s.pid.GetError cte).1 },
       [UpdateOutput.control (NormalizeControl (s.pid.GetError cte).2)
          (if speed > 60 then NormalizeControl (1 - 4 * |cte| / s.off_track_cte)
           else 1)]) := by
  rw [PidController.Update, if_pos (by simp [h]), EmitControl_eq]

theorem update_offtrack (s : PidController) (cte speed : ℚ)
    (h1 : s.has_final_coefficients = false)
    (h2 : s.offTrackDetected cte speed) :
    s.Update cte speed =
      ((s.tuningStep cte speed).UpdateTwiddlerAndReset
         (kOffTrackPenalty / s.newDistance speed),
       [UpdateOutput.reset]) := by
  rw [PidController.Update, if_neg (by simp [h1]), if_pos h2]

theorem update_complete_fix (s : PidController) (cte speed : ℚ)
    (h1 : s.has_final_coefficients = false)
    (h2 : ¬ s.offTrackDetected cte speed)
    (h3 : s.newDistance speed > s.track_length)
    (h4 : s.newMaxCte cte speed < s.off_track_cte / 2) :
    s.Update cte speed =
      ({ s.tuningStep cte speed with
           has_final_coefficients := true }).EmitControl cte speed := by
  rw [PidController.Update, if_neg (by simp [h1]), if_neg h2, if_pos h3,
    if_pos h4]

theorem update_complete_retune (s : PidController) (cte speed : ℚ)
    (h1 : s.has_final_coefficients = false)
    (h2 : ¬ s.offTrackDetected cte speed)
    (h3 : s.newDistance speed > s.track_length)
    (h4 : ¬ s.newMaxCte cte speed < s.off_track_cte / 2) :
    s.Update cte speed =
      ((s.tuningStep cte speed).UpdateTwiddlerAndReset (s.newMaxCte cte speed),
       [UpdateOutput.reset]) := by
  rw [PidController.Update, if_neg (by simp [h1]), if_neg h2, if_pos h3,
    if_neg h4]

theorem update_normal (s : PidController) (cte speed : ℚ)
    (h1 : s.has_final_coefficients = false)
    (h2 : ¬ s.offTrackDetected cte speed)
    (h3 : ¬ s.newDistance speed > s.track_length) :
    s.Update cte speed = (s.tuningStep cte speed).EmitControl cte speed := by
  rw [PidController.Update, if_neg (by simp [h1]), if_neg h2, if_neg h3]

theorem UpdateTwiddlerAndReset_some (s : PidController) (t : Twiddler) (e : ℚ)
    (ht : s.twiddler = some t) :
    s.UpdateTwiddlerAndReset e =
      { s with
          pid := Pid.init ((t.UpdateError e).getParam 0).p
            ((t.UpdateError e).getParam 1).p ((t.UpdateError e).getParam 2).p,
          twiddler := some (t.UpdateError e),
          distance := 0, time := 0, max_cte := 0 } := by
  rw [PidController.UpdateTwiddlerAndReset, ht]

/-! ### Claim theorems -/

/-- C3: For every `Update(cte, speed)` call, exactly one of the two output
callbacks is invoked — either the control callback once or the reset callback
once, never both and never neither; in fixed mode it is always the control
callback. -/
theorem c3_exactly_one_callback (s : PidController) (cte speed : ℚ) :
    (s.Update cte speed).2.length = 1 ∧
      (s.has_final_coefficients = true →
        (s.Update cte speed).2.all UpdateOutput.isControl = true) := by
  by_cases hf : s.has_final_coefficients = true
  · rw [update_final s cte speed hf]
    exact ⟨rfl, fun _ => rfl⟩
  · have hf' : s.has_final_coefficients = false := by
      simpa using hf
    refine ⟨?_, fun h => absurd h hf⟩
    by_cases ho : s.offTrackDetected cte speed
    · rw [update_offtrack s cte speed hf' ho]
      rfl
    · by_cases hd : s.newDistance speed > s.track_length
      · by_cases hm : s.newMaxCte cte speed < s.off_track_cte / 2
        · rw [update_complete_fix s cte speed hf' ho hd hm, EmitControl_eq]
          rfl
        · rw [update_complete_retune s cte speed hf' ho hd hm]
          rfl
      · rw [update_normal s cte speed hf' ho hd, EmitControl_eq]
        rfl

/-- Witness for C3 at a concrete fixed controller and frame. -/
theorem c3_exactly_one_callback_witness :
    ((PidController.mkFixed 1 0 0).Update (1/2) 50).2.length = 1 ∧
      ((PidController.mkFixed 1 0 0).Update (1/2) 50).2.all
        UpdateOutput.isControl = true :=
  ⟨(c3_exactly_one_callback (PidController.mkFixed 1 0 0) (1/2) 50).1,
   (c3_exactly_one_callback (PidController.mkFixed 1 0 0) (1/2) 50).2 rfl⟩

/-- C4: Once the controller has final coefficients, no sequence of later
`Update` calls changes that, touches the episode counters or the tuner, or
emits a reset: every emitted event is a control command. -/
theorem c4_fixed_is_permanent (s : PidController) (inputs : List (ℚ × ℚ))
    (h : s.has_final_coefficients = true) :
    (s.runTrace inputs).1.has_final_coefficients = true ∧
    (s.runTrace inputs).1.twiddler = s.twiddler ∧
    (s.runTrace inputs).1.distance = s.distance ∧
    (s.runTrace inputs).1.time = s.time ∧
    (s.runTrace inputs).1.max_cte = s.max_cte ∧
    (s.runTrace inputs).2.all UpdateOutput.isControl = true := by
  induction inputs generalizing s with
  | nil =>
    simp [PidController.runTrace, h]
  | cons p rest ih =>
    obtain ⟨cte, speed⟩ := p
    have hstep := update_final s cte speed h
    have ih2 := ih { s with pid := (s.pid.GetError cte).1 } h
    simp only [PidController.runTrace, hstep]
    refine ⟨ih2.1, ih2.2.1, ih2.2.2.1, ih2.2.2.2.1, ih2.2.2.2.2.1, ?_⟩
    simp only [List.all_append, Bool.and_eq_true]
    exact ⟨rfl, ih2.2.2.2.2.2⟩

/-- Witness for C4 at a concrete fixed controller and input sequence. -/
theorem c4_fixed_is_permanent_witness :
    ((PidController.mkFixed 1 0 0).runTrace
        [(1, 50), (2, 70), (0, 0)]).1.has_final_coefficients = true ∧
    ((PidController.mkFixed 1 0 0).runTrace
        [(1, 50), (2, 70), (0, 0)]).1.twiddler =
      (PidController.mkFixed 1 0 0).twiddler ∧
    ((PidController.mkFixed 1 0 0).runTrace
        [(1, 50), (2, 70), (0, 0)]).1.distance =
      (PidController.mkFixed 1 0 0).distance ∧
    ((PidController.mkFixed 1 0 0).runTrace
        [(1, 50), (2, 70), (0, 0)]).1.time =
      (PidController.mkFixed 1 0 0).time ∧
    ((PidController.mkFixed 1 0 0).runTrace
        [(1, 50), (2, 70), (0, 0)]).1.max_cte =
      (PidController.mkFixed 1 0 0).max_cte ∧
    ((PidController.mkFixed 1 0 0).runTrace
        [(1, 50), (2, 70), (0, 0)]).2.all UpdateOutput.isControl = true :=
  c4_fixed_is_permanent (PidController.mkFixed 1 0 0)
    [(1, 50), (2, 70), (0, 0)] rfl

/-- C6: Whenever `Update` emits a control command — in fixed mode or on the
tuning fall-through — the steering is the PID correction clamped to `[-1, 1]`
and the throttle is `1.0` for `speed ≤ 60` and
`clamp(1.0 - 4*|cte| / off_track_cte, -1, 1)` for `speed > 60`. -/
theorem c6_control_computation (s : PidController) (cte speed st th : ℚ)
    (hemit : (s.Update cte speed).2 = [UpdateOutput.control st th]) :
    st = NormalizeControl (s.pid.GetError cte).2 ∧
      th = (if speed > 60 then
              NormalizeControl (1 - 4 * |cte| / s.off_track_cte)
            else 1) := by
  by_cases hf : s.has_final_coefficients = true
  · rw [update_final s cte speed hf] at hemit
    simp only [List.cons.injEq, UpdateOutput.control.injEq, and_true] at hemit
    exact ⟨hemit.1.symm, hemit.2.symm⟩
  · have hf' : s.has_final_coefficients = false := by
      simpa using hf
    by_cases ho : s.offTrackDetected cte speed
    · rw [update_offtrack s cte speed hf' ho] at hemit
      simp at hemit
    · by_cases hd : s.newDistance speed > s.track_length
      · by_cases hm : s.newMaxCte cte speed < s.off_track_cte / 2
        · rw [update_complete_fix s cte speed hf' ho hd hm,
            EmitControl_eq] at hemit
          simp only [List.cons.injEq, UpdateOutput.control.injEq,
            and_true] at hemit
          exact ⟨hemit.1.symm, hemit.2.symm⟩
        · rw [update_complete_retune s cte speed hf' ho hd hm] at hemit
          simp at hemit
      · rw [update_normal s cte speed hf' ho hd, EmitControl_eq] at hemit
        simp only [tuningStep_pid, tuningStep_off_track_cte,
          List.cons.injEq, UpdateOutput.control.injEq, and_true] at hemit
        exact ⟨hemit.1.symm, hemit.2.symm⟩

/-- Witness for C6 at a concrete fixed controller and frame. -/
theorem c6_control_computation_witness :
    (-(1/2) : ℚ) =
        NormalizeControl ((PidController.mkFixed 1 0 0).pid.GetError (1/2)).2 ∧
      (1 : ℚ) = (if (0 : ℚ) > 60 then
          NormalizeControl
            (1 - 4 * |(1/2 : ℚ)| / (PidController.mkFixed 1 0 0).off_track_cte)
        else 1) :=
  c6_control_computation (PidController.mkFixed 1 0 0) (1/2) 0 (-(1/2)) 1
    (by norm_num [PidController.Update, PidController.mkFixed,
      PidController.EmitControl, Pid.init, Pid.GetError, NormalizeControl])

/-- C1: In tuning mode the off-track branch triggers exactly when the updated
distance exceeds 5 meters and `|cte| > off_track_cte` or `speed < 1`; on
trigger the score `1e6 / distance` is submitted to the tuner, the PID law is
rebuilt from the returned coefficients, distance/time/max CTE are zeroed and
only the reset callback is invoked; absent the condition, any reset this frame
is the completion branch's (scored with the max CTE instead). -/
theorem c1_offtrack_branch (s : PidController) (t : Twiddler) (cte speed : ℚ)
    (htune : s.has_final_coefficients = false) (ht : s.twiddler = some t) :
    (s.offTrackDetected cte speed →
      s.Update cte speed =
        ({ s with
            distance := 0, time := 0, max_cte := 0,
            pid := Pid.init
              ((t.UpdateError
                  (kOffTrackPenalty / s.newDistance speed)).getParam 0).p
              ((t.UpdateError
                  (kOffTrackPenalty / s.newDistance speed)).getParam 1).p
              ((t.UpdateError
                  (kOffTrackPenalty / s.newDistance speed)).getParam 2).p,
            twiddler :=
              some (t.UpdateError (kOffTrackPenalty / s.newDistance speed)) },
         [UpdateOutput.reset])) ∧
    (¬ s.offTrackDetected cte speed →
      ∀ s2 : PidController, s.Update cte speed = (s2, [UpdateOutput.reset]) →
        s.newDistance speed > s.track_length ∧
          s2.twiddler = some (t.UpdateError (s.newMaxCte cte speed))) := by
  constructor
  · intro ho
    rw [update_offtrack s cte speed htune ho,
      UpdateTwiddlerAndReset_some _ t _ (by simp [ht])]
    rfl
  · intro hno s2 heq
    by_cases hd : s.newDistance speed > s.track_length
    · by_cases hm : s.newMaxCte cte speed < s.off_track_cte / 2
      · rw [update_complete_fix s cte speed htune hno hd hm,
          EmitControl_eq] at heq
        simp at heq
      · rw [update_complete_retune s cte speed htune hno hd hm,
          UpdateTwiddlerAndReset_some _ t _ (by simp [ht])] at heq
        injection heq with h1 h2
        subst h1
        exact ⟨hd, rfl⟩
    · rw [update_normal s cte speed htune hno hd, EmitControl_eq] at heq
      simp at heq

/-- Witness for C1: a tuning controller going off track on a concrete frame. -/
theorem c1_offtrack_branch_witness :
    PidController.Update (PidController.mkTuning 1 0 0 1 1 1 100 5) 6 1000 =
      ({ PidController.mkTuning 1 0 0 1 1 1 100 5 with
          distance := 0, time := 0, max_cte := 0,
          pid := Pid.init
            (((Twiddler.init 1 1 0 1 0 1).UpdateError
                (kOffTrackPenalty /
                  (PidController.mkTuning 1 0 0 1 1 1 100 5).newDistance
                    1000)).getParam 0).p
            (((Twiddler.init 1 1 0 1 0 1).UpdateError
                (kOffTrackPenalty /
                  (PidController.mkTuning 1 0 0 1 1 1 100 5).newDistance
                    1000)).getParam 1).p
            (((Twiddler.init 1 1 0 1 0 1).UpdateError
                (kOffTrackPenalty /
                  (PidController.mkTuning 1 0 0 1 1 1 100 5).newDistance
                    1000)).getParam 2).p,
          twiddler := some ((Twiddler.init 1 1 0 1 0 1).UpdateError
            (kOffTrackPenalty /
              (PidController.mkTuning 1 0 0 1 1 1 100 5).newDistance 1000)) },
       [UpdateOutput.reset]) :=
  (c1_offtrack_branch (PidController.mkTuning 1 0 0 1 1 1 100 5)
      (Twiddler.init 1 1 0 1 0 1) 6 1000 rfl rfl).1
    (by
      norm_num [PidController.offTrackDetected, PidController.newDistance,
        PidController.mkTuning, kMinMeasurementDistance, kSpeedToDistanceCoeff,
        kMphToMps, kMetersInMile, kFrameRate])

/-- C2: In tuning mode the completion branch is reached only when the
off-track branch did not trigger (the latter takes precedence) and fires when
the updated distance exceeds the track length; with the recorded max CTE below
half the off-track CTE the controller becomes fixed, calls no tuner, and emits
a control command this same frame; otherwise the max CTE is submitted as the
score, the PID law is rebuilt, counters are zeroed and the reset callback is
invoked. -/
theorem c2_completion_branch (s : PidController) (t : Twiddler) (cte speed : ℚ)
    (htune : s.has_final_coefficients = false) (ht : s.twiddler = some t) :
    (s.offTrackDetected cte speed →
      s.Update cte speed =
        ({ s with
            distance := 0, time := 0, max_cte := 0,
            pid := Pid.init
              ((t.UpdateError
                  (kOffTrackPenalty / s.newDistance speed)).getParam 0).p
              ((t.UpdateError
                  (kOffTrackPenalty / s.newDistance speed)).getParam 1).p
              ((t.UpdateError
                  (kOffTrackPenalty / s.newDistance speed)).getParam 2).p,
            twiddler :=
              some (t.UpdateError (kOffTrackPenalty / s.newDistance speed)) },
         [UpdateOutput.reset])) ∧
    (¬ s.offTrackDetected cte speed → s.newDistance speed > s.track_length →
      (s.newMaxCte cte speed < s.off_track_cte / 2 →
        s.Update cte speed =
          ({ s with
              distance := s.newDistance speed, time := s.newTime,
              max_cte := s.newMaxCte cte speed,
              has_final_coefficients := true,
              pid := (s.pid.GetError cte).1 },
           [UpdateOutput.control (NormalizeControl (s.pid.GetError cte).2)
              (if speed > 60 then
                NormalizeControl (1 - 4 * |cte| / s.off_track_cte)
               else 1)])) ∧
      (¬ s.newMaxCte cte speed < s.off_track_cte / 2 →
        s.Update cte speed =
          ({ s with
              distance := 0, time := 0, max_cte := 0,
              pid := Pid.init
                ((t.UpdateError (s.newMaxCte cte speed)).getParam 0).p
                ((t.UpdateError (s.newMaxCte cte speed)).getParam 1).p
                ((t.UpdateError (s.newMaxCte cte speed)).getParam 2).p,
              twiddler := some (t.UpdateError (s.newMaxCte cte speed)) },
           [UpdateOutput.reset]))) := by
  constructor
  · intro ho
    rw [update_offtrack s cte speed htune ho,
      UpdateTwiddlerAndReset_some _ t _ (by simp [ht])]
    rfl
  · intro hno hd
    constructor
    · intro hm
      rw [update_complete_fix s cte speed htune hno hd hm, EmitControl_eq]
      rfl
    · intro hm
      rw [update_complete_retune s cte speed htune hno hd hm,
        UpdateTwiddlerAndReset_some _ t _ (by simp [ht])]
      rfl

/-- Witness for C2: a tuning controller completing the track with too large a
max CTE, forcing a re-tune, on a concrete frame. -/
theorem c2_completion_branch_witness :
    PidController.Update (PidController.mkTuning 1 0 0 1 1 1 60 5) 4 4000 =
      ({ PidController.mkTuning 1 0 0 1 1 1 60 5 with
          distance := 0, time := 0, max_cte := 0,
          pid := Pid.init
            (((Twiddler.init 1 1 0 1 0 1).UpdateError
                ((PidController.mkTuning 1 0 0 1 1 1 60 5).newMaxCte 4
                  4000)).getParam 0).p
            (((Twiddler.init 1 1 0 1 0 1).UpdateError
                ((PidController.mkTuning 1 0 0 1 1 1 60 5).newMaxCte 4
                  4000)).getParam 1).p
            (((Twiddler.init 1 1 0 1 0 1).UpdateError
                ((PidController.mkTuning 1 0 0 1 1 1 60 5).newMaxCte 4
                  4000)).getParam 2).p,
          twiddler := some ((Twiddler.init 1 1 0 1 0 1).UpdateError
            ((PidController.mkTuning 1 0 0 1 1 1 60 5).newMaxCte 4 4000)) },
       [UpdateOutput.reset]) :=
  (((c2_completion_branch (PidController.mkTuning 1 0 0 1 1 1 60 5)
        (Twiddler.init 1 1 0 1 0 1) 4 4000 rfl rfl).2
      (by
        norm_num [PidController.offTrackDetected, PidController.newDistance,
          PidController.mkTuning, kMinMeasurementDistance,
          kSpeedToDistanceCoeff, kMphToMps, kMetersInMile, kFrameRate])
      (by
        norm_num [PidController.newDistance, PidController.mkTuning,
          kSpeedToDistanceCoeff, kMphToMps, kMetersInMile, kFrameRate])).2
    (by
      norm_num [PidController.newMaxCte, PidController.newDistance,
        PidController.mkTuning, kMaxCteSkipPart, kSpeedToDistanceCoeff,
        kMphToMps, kMetersInMile, kFrameRate]))

/-- C5 counterexample: in an episode of two gated frames with `cte = -10`
(so `|cte| = 10`) and no episode end, the recorded max CTE stays `0`: the code
compares the signed `cte`, so a negative CTE never raises `max_cte_` and the
claimed equality with the maximum `|cte|` fails. -/
theorem c5_counterexample :
    ((PidController.mkTuning 1 0 0 1 1 1 100 20).runUpdates
        [(-10, 100), (-10, 100)]).max_cte = 0 ∧
    ((PidController.mkTuning 1 0 0 1 1 1 100 20).runUpdates
        [(-10, 100), (-10, 100)]).distance >
      (PidController.mkTuning 1 0 0 1 1 1 100 20).track_length *
        kMaxCteSkipPart ∧
    ((PidController.mkTuning 1 0 0 1 1 1 100 20).runTrace
        [(-10, 100), (-10, 100)]).2.all UpdateOutput.isControl = true ∧
    |(-10 : ℚ)| = 10 ∧
    ((PidController.mkTuning 1 0 0 1 1 1 100 20).runUpdates
        [(-10, 100), (-10, 100)]).max_cte ≠ |(-10 : ℚ)| := by
  norm_num [PidController.runUpdates, PidController.runTrace,
    PidController.Update, PidController.tuningStep, PidController.newDistance,
    PidController.newTime, PidController.newMaxCte,
    PidController.offTrackDetected, PidController.UpdateTwiddlerAndReset,
    PidController.EmitControl, PidController.mkTuning, Pid.init, Pid.GetError,
    NormalizeControl, Twiddler.init, UpdateOutput.isControl,
    kMinMeasurementDistance, kMaxCteSkipPart, kOffTrackPenalty,
    kSecondsPerFrame, kSpeedToDistanceCoeff, kMphToMps, kMetersInMile,
    kFrameRate]

/-- C5 (amended): in tuning mode, on a frame that ends no episode and whose
updated distance is past `track_length * 0.025`, the recorded max CTE becomes
`max(max_cte, cte)` of the signed CTE — a negative CTE never raises it. -/
theorem c5_amended_signed_max (s : PidController) (cte speed : ℚ)
    (htune : s.has_final_coefficients = false)
    (hno : ¬ s.offTrackDetected cte speed)
    (hnc : ¬ s.newDistance speed > s.track_length)
    (hgate : s.newDistance speed > s.track_length * kMaxCteSkipPart) :
    (s.Update cte speed).1.max_cte = max s.max_cte cte := by
  rw [update_normal s cte speed htune hno hnc, EmitControl_eq]
  show s.newMaxCte cte speed = max s.max_cte cte
  rw [PidController.newMaxCte]
  by_cases hc : cte > s.max_cte
  · rw [if_pos ⟨hc, hgate⟩]
    exact (max_eq_right hc.le).symm
  · rw [if_neg (by tauto)]
    push_neg at hc
    exact (max_eq_left hc).symm

/-- Witness for C5 (amended): a gated frame with `cte = -10` leaves the max
CTE at `max 0 (-10) = 0`. -/
theorem c5_amended_signed_max_witness :
    (PidController.Update
        { PidController.mkTuning 1 0 0 1 1 1 100 20 with distance := 3 }
        (-10) 100).1.max_cte =
      max ({ PidController.mkTuning 1 0 0 1 1 1 100 20 with
              distance := 3 } : PidController).max_cte (-10) :=
  c5_amended_signed_max
    { PidController.mkTuning 1 0 0 1 1 1 100 20 with distance := 3 } (-10) 100
    rfl
    (by
      norm_num [PidController.offTrackDetected, PidController.newDistance,
        PidController.mkTuning, kMinMeasurementDistance, kSpeedToDistanceCoeff,
        kMphToMps, kMetersInMile, kFrameRate])
    (by
      norm_num [PidController.newDistance, PidController.mkTuning,
        kSpeedToDistanceCoeff, kMphToMps, kMetersInMile, kFrameRate])
    (by
      norm_num [PidController.newDistance, PidController.mkTuning,
        kMaxCteSkipPart, kSpeedToDistanceCoeff, kMphToMps, kMetersInMile,
        kFrameRate])

/-- C7: after the first-ever submission (which probes parameter 0 upward), a
worse score leaves parameter 0 exactly one delta below its original value, and
a second worse score restores the original value, multiplies the delta by 0.9,
and advances to parameter 1 (probing it upward by its delta). -/
theorem c7_tuner_backtrack (v0 d0 v1 d1 v2 d2 s1 s2 s3 : ℚ)
    (h2 : ¬ s2 < s1) (h3 : ¬ s3 < s1) :
    (((Twiddler.init v0 d0 v1 d1 v2 d2).UpdateError s1).UpdateError
        s2).param0.p = v0 - d0 ∧
    ((((Twiddler.init v0 d0 v1 d1 v2 d2).UpdateError s1).UpdateError
        s2).UpdateError s3).param0.p = v0 ∧
    ((((Twiddler.init v0 d0 v1 d1 v2 d2).UpdateError s1).UpdateError
        s2).UpdateError s3).param0.dp = d0 * (9/10) ∧
    ((((Twiddler.init v0 d0 v1 d1 v2 d2).UpdateError s1).UpdateError
        s2).UpdateError s3).index = 1 ∧
    ((((Twiddler.init v0 d0 v1 d1 v2 d2).UpdateError s1).UpdateError
        s2).UpdateError s3).param1.p = v1 + d1 := by
  refine ⟨?_, ?_, ?_, ?_, ?_⟩ <;>
    simp [Twiddler.UpdateError, Twiddler.init, Twiddler.getParam,
      Twiddler.setParam, Twiddler.advance, h2, h3]
  all_goals ring_nf
  all_goals norm_num

/-- Witness for C7 at concrete parameters and scores. -/
theorem c7_tuner_backtrack_witness :
    (((Twiddler.init 2 1 3 (1/2) 4 (1/4)).UpdateError 5).UpdateError
        7).param0.p = 2 - 1 ∧
    ((((Twiddler.init 2 1 3 (1/2) 4 (1/4)).UpdateError 5).UpdateError
        7).UpdateError 6).param0.p = 2 ∧
    ((((Twiddler.init 2 1 3 (1/2) 4 (1/4)).UpdateError 5).UpdateError
        7).UpdateError 6).param0.dp = 1 * (9/10) ∧
    ((((Twiddler.init 2 1 3 (1/2) 4 (1/4)).UpdateError 5).UpdateError
        7).UpdateError 6).index = 1 ∧
    ((((Twiddler.init 2 1 3 (1/2) 4 (1/4)).UpdateError 5).UpdateError
        7).UpdateError 6).param1.p = 3 + 1/2 :=
  c7_tuner_backtrack 2 1 3 (1/2) 4 (1/4) 5 7 6 (by norm_num) (by norm_num)

/-- C8 counterexample: a fixed controller with `Ki = 1/10` fed the identical
frame `(cte, speed) = (1, 50)` twice emits two different steering values
(`-1/10` then `-1/5`): the PID integral accumulates between identical calls,
so fixed-mode output is not idempotent. -/
theorem c8_counterexample :
    ((PidController.mkFixed 0 (1/10) 0).Update 1 50).2 =
      [UpdateOutput.control (-(1/10)) 1] ∧
    ((((PidController.mkFixed 0 (1/10) 0).Update 1 50).1).Update 1 50).2 =
      [UpdateOutput.control (-(1/5)) 1] ∧
    (-(1/10) : ℚ) ≠ -(1/5) := by
  norm_num [PidController.Update, PidController.mkFixed,
    PidController.EmitControl, Pid.init, Pid.GetError, NormalizeControl]

/-- Invariants of repeated fixed-mode updates: the mode, the off-track CTE and
the PID gains never change, and after at least one call the PID law's
previous-error memory equals the repeated CTE. -/
theorem iterState_fixed_inv (s : PidController) (cte speed : ℚ) (n : ℕ)
    (h : s.has_final_coefficients = true) :
    (s.iterState cte speed n).has_final_coefficients = true ∧
    (s.iterState cte speed n).off_track_cte = s.off_track_cte ∧
    (s.iterState cte speed n).pid.kp = s.pid.kp ∧
    (s.iterState cte speed n).pid.ki = s.pid.ki ∧
    (s.iterState cte speed n).pid.kd = s.pid.kd ∧
    (1 ≤ n → (s.iterState cte speed n).pid.prev_cte = cte) := by
  induction n with
  | zero => simp [PidController.iterState, h]
  | succ n ih =>
    have hstep := update_final (s.iterState cte speed n) cte speed ih.1
    rw [PidController.iterState, hstep]
    exact ⟨ih.1, ih.2.1, ih.2.2.1, ih.2.2.2.1, ih.2.2.2.2.1, fun _ => rfl⟩

/-- C8 (amended): once fixed, every repetition of the identical
`(cte, speed)` frame invokes the control callback, always with the same
throttle; the steering is the clamp of the evolving PID correction, and when
`Ki = 0` it is identical from the second call onward. -/
theorem c8_amended_fixed_repetition (s : PidController) (cte speed : ℚ)
    (n : ℕ) (h : s.has_final_coefficients = true) :
    ((s.iterState cte speed n).Update cte speed).2 =
      [UpdateOutput.control
        (NormalizeControl ((s.iterState cte speed n).pid.GetError cte).2)
        (if speed > 60 then NormalizeControl (1 - 4 * |cte| / s.off_track_cte)
         else 1)] ∧
    (s.pid.ki = 0 → 1 ≤ n →
      NormalizeControl ((s.iterState cte speed n).pid.GetError cte).2 =
        NormalizeControl ((s.iterState cte speed 1).pid.GetError cte).2) := by
  have inv := iterState_fixed_inv s cte speed n h
  constructor
  · rw [update_final _ cte speed inv.1, inv.2.1]
  · intro hki hn
    have inv1 := iterState_fixed_inv s cte speed 1 h
    have e1 : ((s.iterState cte speed n).pid.GetError cte).2 =
        -(s.pid.kp * cte) := by
      simp only [Pid.GetError]
      rw [inv.2.2.1, inv.2.2.2.1, inv.2.2.2.2.2 hn, hki]
      ring
    have e2 : ((s.iterState cte speed 1).pid.GetError cte).2 =
        -(s.pid.kp * cte) := by
      simp only [Pid.GetError]
      rw [inv1.2.2.1, inv1.2.2.2.1, inv1.2.2.2.2.2 le_rfl, hki]
      ring
    rw [e1, e2]

/-- Witness for C8 (amended) at a concrete fixed controller, frame and
repetition count. -/
theorem c8_amended_fixed_repetition_witness :
    (((PidController.mkFixed 1 0 0).iterState 2 100 2).Update 2 100).2 =
      [UpdateOutput.control
        (NormalizeControl
          (((PidController.mkFixed 1 0 0).iterState 2 100 2).pid.GetError 2).2)
        (if (100 : ℚ) > 60 then
          NormalizeControl
            (1 - 4 * |(2 : ℚ)| / (PidController.mkFixed 1 0 0).off_track_cte)
         else 1)] ∧
    NormalizeControl
        (((PidController.mkFixed 1 0 0).iterState 2 100 2).pid.GetError 2).2 =
      NormalizeControl
        (((PidController.mkFixed 1 0 0).iterState 2 100 1).pid.GetError 2).2 :=
  ⟨(c8_amended_fixed_repetition (PidController.mkFixed 1 0 0) 2 100 2 rfl).1,
   (c8_amended_fixed_repetition (PidController.mkFixed 1 0 0) 2 100 2 rfl).2
     rfl (by norm_num)⟩

/-- C9 (code bug): the validation itself fires before a controller is built —
an off-track CTE below 0.1 or a track length below 50 yields no controller —
but the surviving valid values are scrambled on the way in: at the
repository's own reference parameters, the positional binding of
`main.cpp:136-137` against the constructor definition of
`PidController.cpp:38-40` stores the validated `track_length` (100) as the
`off_track_cte` member (not the supplied 5), the supplied `dKd` (1/10) as the
`track_length` member, and the validated `off_track_cte` (5) as the
twiddler's first delta. -/
theorem c9_scrambled_construction :
    CreatePidControllerTuning (1/10) (1/10000) 4 (1/20) (1/100) (1/100000)
        (1/10) 100 = none ∧
    CreatePidControllerTuning (1/10) (1/10000) 4 5 (1/100) (1/100000)
        (1/10) 49 = none ∧
    CreatePidControllerTuning (1/10) (1/10000) 4 5 (1/100) (1/100000)
        (1/10) 100 =
      some (PidController.mkTuning (1/10) (1/10000) 4 5 (1/100) (1/100000)
        (1/10) 100) ∧
    (PidController.mkTuning (1/10) (1/10000) 4 5 (1/100) (1/100000)
        (1/10) 100).off_track_cte = 100 ∧
    (PidController.mkTuning (1/10) (1/10000) 4 5 (1/100) (1/100000)
        (1/10) 100).off_track_cte ≠ 5 ∧
    (PidController.mkTuning (1/10) (1/10000) 4 5 (1/100) (1/100000)
        (1/10) 100).track_length = 1/10 ∧
    (PidController.mkTuning (1/10) (1/10000) 4 5 (1/100) (1/100000)
        (1/10) 100).twiddler =
      some (Twiddler.init (1/10) 5 (1/10000) (1/100) 4 (1/100000)) := by
  norm_num [CreatePidControllerTuning, ProcessBaseParameters, kMinOffTrackCte,
    kMinTrackLength, PidController.mkTuning, Pid.init, Twiddler.init]

/-- C10: the three-coefficient (fixed) constructor zero-initializes the
off-track CTE member, and every `Update` with `speed > 60` computes the
throttle as `clamp(1 - 4*|cte| / 0)` — the divisor is that zero member, with
no guard (in this rational model `x / 0 = 0`; the C++ `double` division by
zero yields an infinite or NaN intermediate instead). -/
theorem c10_fixed_divides_by_zero (kp ki kd cte speed : ℚ)
    (hspeed : speed > 60) :
    (PidController.mkFixed kp ki kd).off_track_cte = 0 ∧
    ((PidController.mkFixed kp ki kd).Update cte speed).2 =
      [UpdateOutput.control
        (NormalizeControl ((Pid.init kp ki kd).GetError cte).2)
        (NormalizeControl (1 - 4 * |cte| / 0))] := by
  refine ⟨rfl, ?_⟩
  rw [update_final _ cte speed rfl, if_pos hspeed]
  rfl

/-- Witness for C10 at a concrete fixed controller and frame above 60 mph. -/
theorem c10_fixed_divides_by_zero_witness :
    (PidController.mkFixed 1 0 0).off_track_cte = 0 ∧
    ((PidController.mkFixed 1 0 0).Update 3 100).2 =
      [UpdateOutput.control
        (NormalizeControl ((Pid.init 1 0 0).GetError 3).2)
        (NormalizeControl (1 - 4 * |(3 : ℚ)| / 0))] :=
  c10_fixed_divides_by_zero 1 0 0 3 100 (by norm_num)

end CarndPidControl
